import Mathlib

/-!
Shallow embedding of `src/incident_detector/main.py`: a Kubernetes incident
detector that polls rollout metadata and an error-log count, applies a
threshold / freshness trigger, dedupes by rollout revision, and notifies a
Slack webhook.

Modelling conventions:
* Instants (`datetime` values) are integers counting seconds; the Python
  `timedelta(minutes=w)` becomes `60 * w`.  Comparison of instants mirrors
  `datetime` comparison.
* Python `Optional[T]` becomes `Option T`; code that can raise becomes
  `Except String _`, the `String` standing for the exception rendered by
  `f"error: {exc}"` in the poll loop's handler.
* Network I/O is passed in as explicit data: the ReplicaSet list the
  Kubernetes API returned, the series list Loki returned, and a `post`
  oracle for the Slack webhook.  `requests` raising on transport failure or
  `raise_for_status` is modelled by `Except.error` / `HttpResponse.connError`.
* A string parsed by Python `float` is abstracted by `LokiValue`: either a
  finite float of exact rational value `q`, an infinity, a NaN, or a string
  `float` rejects with `ValueError`.
-/

namespace IncidentDetector

/-- Structured incident payload emitted to stdout and sent to Slack
(`Incident` dataclass; `rollout_time` and `detected_at` are instants here,
where the Python stores their ISO rendering). -/
structure Incident where
  incident_id : String
  nspace : String
  deployment : String
  revision : String
  rollout_time : Int
  error_count : Int
  error_window_minutes : Int
  detected_at : Int
  signal : String
  impact : String
  recommended_action : String
deriving Repr, DecidableEq

/-- Runtime configuration loaded from environment variables (`Config`
dataclass; `nspace` is the Python field `namespace`). -/
structure Config where
  nspace : String
  target_deployment : String
  loki_url : String
  error_threshold : Int
  rollout_window_minutes : Int
  poll_interval_seconds : Int
  slack_webhook_url : Option String
  loki_label_app : String
deriving Repr, DecidableEq

/-- State kept between polling cycles for /status and deduplication
(`State` dataclass). -/
structure State where
  last_poll_time : Option Int := none
  last_error_count : Option Int := none
  last_rollout_revision : Option String := none
  last_rollout_time : Option Int := none
  last_incident_revision : Option String := none
  last_incident : Option Incident := none
  last_slack_status : Option String := none
deriving Repr, DecidableEq

/-- Python truthiness of an `Optional[str]`: `None` and `""` are falsy. -/
def truthy : Option String → Bool
  | none => false
  | some s => !(s == "")

/-- Outcome of one HTTP request made by `requests`: a response with a status
code, or a transport-level exception. -/
inductive HttpResponse where
  | response (status : Nat)
  | connError (msg : String)
deriving Repr, DecidableEq

/-- Semantics of `requests.Response.raise_for_status`: raises `HTTPError`
for 4xx and 5xx status codes, otherwise returns. -/
def raiseForStatus (r : HttpResponse) : Except String Nat :=
  match r with
  | .connError m => .error m
  | .response status =>
    if 400 ≤ status ∧ status < 600 then .error ("HTTPError: " ++ toString status)
    else .ok status

/-- One data point value returned by Loki, abstracting the Python
`float(latest_value)` parse of the payload string: a finite float of exact
value `q`, an infinity, a NaN, or a string `float` rejects with
`ValueError`. -/
inductive LokiValue where
  | num (q : ℚ)
  | inf
  | nan
  | bad
deriving Repr, DecidableEq

/-- Semantics of Python `int` on a finite float: truncation toward zero. -/
def int_of_pyfloat (q : ℚ) : Int :=
  if 0 ≤ q then ⌊q⌋ else ⌈q⌉

/-- Semantics of Python `int(float(latest_value))` wrapped in the source's
`try/except ValueError`: `ValueError` (an unparseable string, or `int` on a
NaN) is caught and yields 0, while `int` on an infinity raises
`OverflowError`, which the handler does not catch. -/
def int_of_loki_value (v : LokiValue) : Except String Int :=
  match v with
  | .num q => .ok (int_of_pyfloat q)
  | .inf => .error "OverflowError: cannot convert float infinity to integer"
  | .nan => .ok 0
  | .bad => .ok 0

/-- Query Loki for error-like logs and return a count
(`fetch_error_count`).  `lokiQuery` is what the `query_range` request would
deliver: a transport/HTTP failure, or the `data.result` list of series, each
series its `values` list of (timestamp, value) pairs. -/
def fetch_error_count (config : Config)
    (lokiQuery : Except String (List (List (Int × LokiValue)))) :
    Except String Int :=
  if config.loki_url == "" then .ok 0
  else
    match lokiQuery with
    | .error exc => .error exc
    | .ok results =>
      match results with
      | [] => .ok 0
      | series :: _ =>
        match series.getLast? with
        | none => .ok 0
        | some (_, latest_value) => int_of_loki_value latest_value

/-- Owner reference carried in ReplicaSet metadata. -/
structure OwnerRef where
  kind : String
  name : String
deriving Repr, DecidableEq

/-- The fields of one ReplicaSet object that `fetch_rollout_info` reads:
owner references, the `deployment.kubernetes.io/revision` annotation (if
present) and the creation timestamp (if present, as a parsed instant). -/
structure ReplicaSet where
  ownerReferences : List OwnerRef
  revision : Option String
  creationTimestamp : Option Int
deriving Repr, DecidableEq

/-- Ownership check inside `fetch_rollout_info`: some owner reference has
kind "Deployment" and the target deployment's name. -/
def owned_by (deployment : String) (replica : ReplicaSet) : Bool :=
  replica.ownerReferences.any fun ref =>
    ref.kind == "Deployment" && ref.name == deployment

/-- The (revision, creation time) key of a ReplicaSet when it qualifies:
owned by the deployment and carrying a truthy revision annotation and a
creation timestamp (mirroring `if not revision or not created_at: continue`). -/
def rsKey (deployment : String) (replica : ReplicaSet) :
    Option (String × Int) :=
  if !owned_by deployment replica then none
  else
    match replica.revision, replica.creationTimestamp with
    | some rev, some t => if rev == "" then none else some (rev, t)
    | _, _ => none

/-- Update step of the loop in `fetch_rollout_info` on a qualifying key:
`if latest_time is None or created_time > latest_time`, replace the best
(revision, creation time) pair, else keep it. -/
def pickPair (acc : Option (String × Int)) (k : String × Int) :
    Option (String × Int) :=
  match acc with
  | none => some k
  | some b => if k.2 > b.2 then some k else some b

/-- Loop body of `fetch_rollout_info`: skip non-qualifying ReplicaSets,
otherwise apply the update step. -/
def pickLater (acc : Option (String × Int)) (deployment : String)
    (replica : ReplicaSet) : Option (String × Int) :=
  match rsKey deployment replica with
  | none => acc
  | some k => pickPair acc k

/-- Find the latest ReplicaSet revision for the deployment and its creation
time (`fetch_rollout_info`), over the `items` list the Kubernetes API
returned. -/
def fetch_rollout_info (deployment : String)
    (replicasets : List ReplicaSet) : Option (String × Int) :=
  replicasets.foldl (fun acc replica => pickLater acc deployment replica) none

/-- Create the structured incident payload (`build_incident`). -/
def build_incident (config : Config) (now : Int) (revision : String)
    (rollout_time : Int) (error_count : Int) : Incident :=
  { incident_id :=
      config.nspace ++ ":" ++ config.target_deployment ++ ":" ++ revision
    nspace := config.nspace
    deployment := config.target_deployment
    revision := revision
    rollout_time := rollout_time
    error_count := error_count
    error_window_minutes := 2
    detected_at := now
    signal := "Error logs spiked to " ++ toString error_count ++
      " in the last 2 minutes while a new rollout was detected."
    impact := "Customers may be seeing failures from " ++
      config.target_deployment ++ " (HTTP 500 / exceptions)."
    recommended_action := "Rollback deployment " ++
      config.target_deployment ++ " to the previous revision." }

/-- Render the plain-English Slack message (`format_slack_message`). -/
def format_slack_message (incident : Incident) : String :=
  "Deployment regression detected.\n" ++
  "Signal: " ++ incident.signal ++ "\n" ++
  "Correlation to rollout: revision " ++ incident.revision ++
  " created at " ++ toString incident.rollout_time ++ ".\n" ++
  "Impact: " ++ incident.impact ++ "\n" ++
  "Recommended action: " ++ incident.recommended_action

/-- Send the Slack notification if a webhook URL is configured
(`send_slack_notification`).  Returns the outcome (`Except.error` meaning
the Python function raised) together with the list of network POSTs made,
so that "no network call" is a statement about the model. -/
def send_slack_notification (post : String → String → HttpResponse)
    (webhook_url : Option String) (incident : Incident) :
    Except String String × List (String × String) :=
  if truthy webhook_url = false then
    (.ok "skipped (no webhook configured)", [])
  else
    let url := webhook_url.getD ""
    let msg := format_slack_message incident
    match raiseForStatus (post url msg) with
    | .error exc => (.error exc, [(url, msg)])
    | .ok status => (.ok ("sent (" ++ toString status ++ ")"), [(url, msg)])

/-- Apply rollout and error threshold checks to decide whether to trigger
(`should_trigger_incident`). -/
def should_trigger_incident (config : Config) (now : Int)
    (rollout : Option (String × Int)) (error_count : Int) :
    Option (String × Int) :=
  match rollout with
  | none => none
  | some (revision, rollout_time) =>
    let window_start := now - 60 * config.rollout_window_minutes
    if rollout_time < window_start then none
    else if error_count < config.error_threshold then none
    else some (revision, rollout_time)

/-- External inputs one iteration of `poll_loop` consumes: the current time,
what the Kubernetes API delivered (or the exception `fetch_rollout_info`
raised), what the Loki query delivered (or the exception it raised), and the
webhook POST oracle. -/
structure CycleInput where
  now : Int
  kube : Except String (List ReplicaSet)
  loki : Except String (List (List (Int × LokiValue)))
  post : String → String → HttpResponse

/-- Result of one iteration of `poll_loop`: the new state, the incidents
passed to `build_incident`, the incidents passed to
`send_slack_notification`, and the incident records printed to stdout. -/
structure CycleResult where
  state : State
  built : List Incident
  notified : List Incident
  emitted : List Incident
deriving Repr, DecidableEq

/-- One iteration of the body of `poll_loop`: fetch rollout and error count,
update the last-poll fields, apply `should_trigger_incident`, dedup on
`last_incident_revision`, and on a novel trigger build, notify, record and
emit.  Any exception (a fetch raising, or `send_slack_notification`
raising) reaches the `except` handler, which only records
`"error: " ++ exc` in `last_slack_status`. -/
def poll_cycle (config : Config) (state : State) (inp : CycleInput) :
    CycleResult :=
  match inp.kube with
  | .error exc =>
    ⟨{ state with last_slack_status := some ("error: " ++ exc) }, [], [], []⟩
  | .ok replicasets =>
    let rollout := fetch_rollout_info config.target_deployment replicasets
    match fetch_error_count config inp.loki with
    | .error exc =>
      ⟨{ state with last_slack_status := some ("error: " ++ exc) }, [], [], []⟩
    | .ok error_count =>
      let state1 := { state with
        last_poll_time := some inp.now
        last_error_count := some error_count }
      let state2 :=
        match rollout with
        | some (rev, rollout_time) => { state1 with
            last_rollout_revision := some rev
            last_rollout_time := some rollout_time }
        | none => state1
      match should_trigger_incident config inp.now rollout error_count with
      | none => ⟨state2, [], [], []⟩
      | some (revision, rollout_time) =>
        if state2.last_incident_revision = some revision then
          ⟨state2, [], [], []⟩
        else
          let incident :=
            build_incident config inp.now revision rollout_time error_count
          match send_slack_notification inp.post config.slack_webhook_url
              incident with
          | (.error exc, _) =>
            ⟨{ state2 with last_slack_status := some ("error: " ++ exc) },
              [incident], [incident], []⟩
          | (.ok slack_status, _) =>
            ⟨{ state2 with
                last_incident_revision := some revision
                last_incident := some incident
                last_slack_status := some slack_status },
              [incident], [incident], [incident]⟩

/-- Fold step for consecutive poll cycles: run one cycle from the
accumulated state and append its built/notified/emitted incidents. -/
def cycle_step (config : Config) (acc : CycleResult) (inp : CycleInput) :
    CycleResult :=
  let r := poll_cycle config acc.state inp
  ⟨r.state, acc.built ++ r.built, acc.notified ++ r.notified,
    acc.emitted ++ r.emitted⟩

/-- Run several consecutive iterations of `poll_loop`, accumulating the
built, notified and emitted incidents. -/
def run_cycles (config : Config) (state : State)
    (inputs : List CycleInput) : CycleResult :=
  inputs.foldl (cycle_step config) ⟨state, [], [], []⟩

/-- The trigger condition of one cycle holds for revision `R`: the rollout
fetch succeeds and selects `R`, the error fetch succeeds, and
`should_trigger_incident` fires on them. -/
def cycle_triggers_for (config : Config) (inp : CycleInput) (R : String) :
    Prop :=
  ∃ replicasets t c,
    inp.kube = .ok replicasets ∧
    fetch_rollout_info config.target_deployment replicasets = some (R, t) ∧
    fetch_error_count config inp.loki = .ok c ∧
    should_trigger_incident config inp.now (some (R, t)) c = some (R, t)

/-- The webhook endpoint answers every POST of this cycle with a
non-error status, so `send_slack_notification` does not raise. -/
def notify_succeeds (inp : CycleInput) : Prop :=
  ∀ url msg, ∃ status,
    inp.post url msg = HttpResponse.response status ∧ status < 400

/-- Sample configuration for concrete witnesses, matching the defaults of
`load_config` plus a Loki URL and a webhook. -/
def demoConfig : Config :=
  ⟨"demo", "payments-api", "http://loki", 5, 10, 20, some "http://hook",
    "payments-api"⟩

/-- Sample ReplicaSet owned by the demo deployment, revision "7", created
at instant 60. -/
def demoReplicaSet : ReplicaSet :=
  ⟨[⟨"Deployment", "payments-api"⟩], some "7", some 60⟩

/-- Cycle input whose fetches succeed, trigger fires, and whose webhook
answers 200. -/
def goodCycleInput : CycleInput :=
  ⟨660, .ok [demoReplicaSet], .ok [[(0, .num 8)]], fun _ _ => .response 200⟩

/-- Cycle input identical to `goodCycleInput` except that the webhook
answers 500, so the notification delivery fails. -/
def failCycleInput : CycleInput :=
  ⟨660, .ok [demoReplicaSet], .ok [[(0, .num 8)]], fun _ _ => .response 500⟩

/-! ### Helper lemmas -/

/-- Evaluation of one poll cycle when both fetches succeed but the trigger
does not fire: only the last-poll fields (and, if a rollout was seen, the
last-rollout fields) change. -/
theorem poll_cycle_no_trigger (config : Config) (s : State) (now : Int)
    (loki : Except String (List (List (Int × LokiValue))))
    (post : String → String → HttpResponse) (replicasets : List ReplicaSet)
    (c : Int)
    (hfec : fetch_error_count config loki = .ok c)
    (hsti : should_trigger_incident config now
      (fetch_rollout_info config.target_deployment replicasets) c = none) :
    poll_cycle config s ⟨now, .ok replicasets, loki, post⟩ =
      ⟨match fetch_rollout_info config.target_deployment replicasets with
        | some (rev, rollout_time) =>
          { s with
            last_poll_time := some now
            last_error_count := some c
            last_rollout_revision := some rev
            last_rollout_time := some rollout_time }
        | none =>
          { s with
            last_poll_time := some now
            last_error_count := some c },
        [], [], []⟩ := by
  unfold poll_cycle
  dsimp only
  rw [hfec]
  dsimp only
  rw [hsti]

/-- Evaluation of one poll cycle when the trigger fires for revision `R`:
the last-poll and last-rollout fields are updated, and the dedup check and
notification proceed from there. -/
theorem poll_cycle_trigger (config : Config) (s : State) (now : Int)
    (loki : Except String (List (List (Int × LokiValue))))
    (post : String → String → HttpResponse) (replicasets : List ReplicaSet)
    (R : String) (t : Int) (c : Int)
    (hfri : fetch_rollout_info config.target_deployment replicasets =
      some (R, t))
    (hfec : fetch_error_count config loki = .ok c)
    (hsti : should_trigger_incident config now (some (R, t)) c =
      some (R, t)) :
    poll_cycle config s ⟨now, .ok replicasets, loki, post⟩ =
      (let state2 : State := { s with
          last_poll_time := some now
          last_error_count := some c
          last_rollout_revision := some R
          last_rollout_time := some t }
      let incident := build_incident config now R t c
      if s.last_incident_revision = some R then ⟨state2, [], [], []⟩
      else
        match send_slack_notification post config.slack_webhook_url
            incident with
        | (.error exc, _) =>
          ⟨{ state2 with last_slack_status := some ("error: " ++ exc) },
            [incident], [incident], []⟩
        | (.ok slack_status, _) =>
          ⟨{ state2 with
              last_incident_revision := some R
              last_incident := some incident
              last_slack_status := some slack_status },
            [incident], [incident], [incident]⟩) := by
  unfold poll_cycle
  dsimp only
  rw [hfec]
  dsimp only
  rw [hfri]
  dsimp only
  rw [hsti]

/-- If every POST is answered with a non-error status, the notifier
returns a success outcome (sent, or skipped when unconfigured). -/
theorem send_ok_of_notify (post : String → String → HttpResponse)
    (hpost : ∀ url msg, ∃ status,
      post url msg = HttpResponse.response status ∧ status < 400)
    (webhook_url : Option String) (incident : Incident) :
    ∃ out, (send_slack_notification post webhook_url incident).1 =
      Except.ok out := by
  unfold send_slack_notification
  by_cases ht : truthy webhook_url = false
  · rw [if_pos ht]
    exact ⟨_, rfl⟩
  · rw [if_neg ht]
    dsimp only
    obtain ⟨status, hp, hlt⟩ :=
      hpost (webhook_url.getD "") (format_slack_message incident)
    rw [hp]
    have h6 : ¬ (400 ≤ status ∧ status < 600) := by omega
    dsimp only [raiseForStatus]
    rw [if_neg h6]
    exact ⟨_, rfl⟩

/-- A "sent (...)" outcome string of the notifier is never the "skipped"
outcome string. -/
theorem sent_ne_skipped (s : String) :
    "sent (" ++ s ++ ")" ≠ "skipped (no webhook configured)" := by
  intro h
  have h2 : (("sent (" ++ s ++ ")").data.get? 1) =
      (("skipped (no webhook configured)" : String).data.get? 1) := by rw [h]
  rw [String.data_append, String.data_append] at h2
  have hs : ("sent (" : String).data = ['s', 'e', 'n', 't', ' ', '('] := rfl
  have hk : ("skipped (no webhook configured)" : String).data =
      "skipped (no webhook configured)".toList := rfl
  rw [hs] at h2
  simp [List.cons_append] at h2

/-- A triggered cycle whose revision equals the dedup key builds, notifies
and emits nothing, and leaves the dedup key unchanged. -/
theorem poll_cycle_skip_of_dup (config : Config) (s : State)
    (inp : CycleInput) (R : String)
    (htrig : cycle_triggers_for config inp R)
    (hdup : s.last_incident_revision = some R) :
    (poll_cycle config s inp).built = [] ∧
    (poll_cycle config s inp).notified = [] ∧
    (poll_cycle config s inp).emitted = [] ∧
    (poll_cycle config s inp).state.last_incident_revision = some R := by
  obtain ⟨replicasets, t, c, hk, hfri, hfec, hsti⟩ := htrig
  rcases inp with ⟨now, kube, loki, post⟩
  dsimp only at hk hfec hsti
  subst hk
  rw [poll_cycle_trigger config s now loki post replicasets R t c hfri hfec
    hsti]
  dsimp only
  rw [if_pos hdup]
  exact ⟨rfl, rfl, rfl, hdup⟩

/-- A triggered cycle whose revision differs from the dedup key, with a
webhook that answers without error, builds exactly one incident, attempts
exactly one notification, emits that incident, and sets the dedup key to
the triggered revision. -/
theorem poll_cycle_emit_of_new (config : Config) (s : State)
    (inp : CycleInput) (R : String)
    (htrig : cycle_triggers_for config inp R)
    (hnew : s.last_incident_revision ≠ some R)
    (hok : notify_succeeds inp) :
    ∃ inc : Incident, inc.revision = R ∧
      (poll_cycle config s inp).built = [inc] ∧
      (poll_cycle config s inp).notified = [inc] ∧
      (poll_cycle config s inp).emitted = [inc] ∧
      (poll_cycle config s inp).state.last_incident_revision = some R ∧
      (poll_cycle config s inp).state.last_incident = some inc := by
  obtain ⟨replicasets, t, c, hk, hfri, hfec, hsti⟩ := htrig
  rcases inp with ⟨now, kube, loki, post⟩
  dsimp only at hk hfec hsti
  subst hk
  obtain ⟨out, hsendok⟩ := send_ok_of_notify post (fun u m => hok u m)
    config.slack_webhook_url (build_incident config now R t c)
  rw [poll_cycle_trigger config s now loki post replicasets R t c hfri hfec
    hsti]
  dsimp only
  rw [if_neg hnew]
  rcases hsend : send_slack_notification post config.slack_webhook_url
      (build_incident config now R t c) with ⟨res, calls⟩
  rw [hsend] at hsendok
  dsimp only at hsendok
  subst hsendok
  exact ⟨build_incident config now R t c, rfl, rfl, rfl, rfl, rfl, rfl⟩

/-- Fold-accumulator lemma for `run_cycles`: running from an accumulator
with already-collected lists just prepends those lists. -/
theorem foldl_cycle_step_acc (config : Config) (inputs : List CycleInput) :
    ∀ (s : State) (b n e : List Incident),
      inputs.foldl (cycle_step config) ⟨s, b, n, e⟩ =
        ⟨(inputs.foldl (cycle_step config) ⟨s, [], [], []⟩).state,
          b ++ (inputs.foldl (cycle_step config) ⟨s, [], [], []⟩).built,
          n ++ (inputs.foldl (cycle_step config) ⟨s, [], [], []⟩).notified,
          e ++ (inputs.foldl (cycle_step config) ⟨s, [], [], []⟩).emitted⟩ := by
  induction inputs with
  | nil =>
    intro s b n e
    simp
  | cons inp rest ih =>
    intro s b n e
    rw [List.foldl_cons, List.foldl_cons]
    dsimp only [cycle_step, List.nil_append]
    rw [ih, ih (poll_cycle config s inp).state (poll_cycle config s inp).built
      (poll_cycle config s inp).notified (poll_cycle config s inp).emitted]
    simp [List.append_assoc]

/-- Unfolding of `run_cycles` on a cons cell. -/
theorem run_cycles_cons_eq (config : Config) (s : State) (inp : CycleInput)
    (rest : List CycleInput) :
    run_cycles config s (inp :: rest) =
      ⟨(run_cycles config (poll_cycle config s inp).state rest).state,
        (poll_cycle config s inp).built ++
          (run_cycles config (poll_cycle config s inp).state rest).built,
        (poll_cycle config s inp).notified ++
          (run_cycles config (poll_cycle config s inp).state rest).notified,
        (poll_cycle config s inp).emitted ++
          (run_cycles config (poll_cycle config s inp).state rest).emitted⟩ := by
  unfold run_cycles
  rw [List.foldl_cons]
  dsimp only [cycle_step, List.nil_append]
  exact foldl_cycle_step_acc config rest _ _ _ _

/-- Once the dedup key holds `R`, a run of cycles whose trigger condition
holds for `R` throughout builds, notifies and emits nothing and keeps the
key at `R`. -/
theorem run_cycles_skip_of_dup (config : Config) (R : String)
    (inputs : List CycleInput) :
    ∀ s : State, s.last_incident_revision = some R →
      (∀ inp ∈ inputs, cycle_triggers_for config inp R) →
      (run_cycles config s inputs).built = [] ∧
      (run_cycles config s inputs).notified = [] ∧
      (run_cycles config s inputs).emitted = [] ∧
      (run_cycles config s inputs).state.last_incident_revision = some R := by
  induction inputs with
  | nil =>
    intro s hdup _
    exact ⟨rfl, rfl, rfl, hdup⟩
  | cons inp rest ih =>
    intro s hdup hall
    obtain ⟨hb, hn, he, hkey⟩ := poll_cycle_skip_of_dup config s inp R
      (hall inp (List.mem_cons_self inp rest)) hdup
    obtain ⟨hb', hn', he', hkey'⟩ := ih (poll_cycle config s inp).state hkey
      (fun i hi => hall i (List.mem_cons_of_mem inp hi))
    rw [run_cycles_cons_eq]
    dsimp only
    rw [hb, hn, he, hb', hn', he']
    exact ⟨rfl, rfl, rfl, hkey'⟩

/-- The fold of `fetch_rollout_info` over ReplicaSets equals the fold of
the update step over the qualifying keys, in list order. -/
theorem foldl_pickLater_eq (deployment : String) (rs : List ReplicaSet) :
    ∀ acc : Option (String × Int),
      rs.foldl (fun a r => pickLater a deployment r) acc =
        (rs.filterMap (rsKey deployment)).foldl pickPair acc := by
  induction rs with
  | nil =>
    intro acc
    rfl
  | cons r rest ih =>
    intro acc
    rw [List.foldl_cons, List.filterMap_cons]
    rcases hk : rsKey deployment r with _ | k
    · have h1 : pickLater acc deployment r = acc := by
        unfold pickLater
        rw [hk]
      rw [h1]
      exact ih acc
    · have h1 : pickLater acc deployment r = pickPair acc k := by
        unfold pickLater
        rw [hk]
      rw [h1, List.foldl_cons]
      exact ih (pickPair acc k)

/-- Characterization of the update-step fold from a non-empty accumulator:
either every key's time is bounded by the accumulator's and the
accumulator survives, or the result is the first key of the list whose
time exceeds the accumulator's and is never strictly exceeded later. -/
theorem foldl_pickPair_some (ks : List (String × Int)) :
    ∀ b : String × Int,
      (ks.foldl pickPair (some b) = some b ∧ ∀ p ∈ ks, p.2 ≤ b.2) ∨
      (∃ c l₁ l₂, ks = l₁ ++ c :: l₂ ∧
        ks.foldl pickPair (some b) = some c ∧ b.2 < c.2 ∧
        (∀ p ∈ l₁, p.2 < c.2) ∧ (∀ p ∈ l₂, p.2 ≤ c.2)) := by
  induction ks with
  | nil =>
    intro b
    left
    exact ⟨rfl, by simp⟩
  | cons k rest ih =>
    intro b
    rw [List.foldl_cons]
    by_cases hk : k.2 > b.2
    · have hp : pickPair (some b) k = some k := by
        show (if k.2 > b.2 then some k else some b) = some k
        rw [if_pos hk]
      rw [hp]
      rcases ih k with ⟨heq, hall⟩ | ⟨c, l₁, l₂, hsplit, heq, hlt, hpre, hpost⟩
      · right
        exact ⟨k, [], rest, by simp, heq, hk, by simp, hall⟩
      · right
        refine ⟨c, k :: l₁, l₂, by rw [hsplit]; rfl, heq,
          lt_trans hk hlt, ?_, hpost⟩
        intro p hp'
        rcases List.mem_cons.1 hp' with rfl | hmem
        · exact hlt
        · exact hpre p hmem
    · have hp : pickPair (some b) k = some b := by
        show (if k.2 > b.2 then some k else some b) = some b
        rw [if_neg hk]
      rw [hp]
      rcases ih b with ⟨heq, hall⟩ | ⟨c, l₁, l₂, hsplit, heq, hlt, hpre, hpost⟩
      · left
        refine ⟨heq, ?_⟩
        intro p hp'
        rcases List.mem_cons.1 hp' with rfl | hmem
        · exact le_of_not_lt hk
        · exact hall p hmem
      · right
        refine ⟨c, k :: l₁, l₂, by rw [hsplit]; rfl, heq, hlt, ?_, hpost⟩
        intro p hp'
        rcases List.mem_cons.1 hp' with rfl | hmem
        · exact lt_of_le_of_lt (le_of_not_lt hk) hlt
        · exact hpre p hmem

/-! ### Theorems for the claims -/

/-- C2: with a fresh rollout inside the correlation window, the trigger
evaluator triggers if and only if the observed error count is at least the
configured threshold; in particular it triggers at count = threshold and
does not trigger at count = threshold - 1. -/
theorem C2_threshold_boundary (config : Config) (now : Int) (rev : String)
    (t : Int) (hfresh : now - 60 * config.rollout_window_minutes ≤ t) :
    (∀ c : Int,
      should_trigger_incident config now (some (rev, t)) c = some (rev, t) ↔
        config.error_threshold ≤ c) ∧
    should_trigger_incident config now (some (rev, t))
        config.error_threshold = some (rev, t) ∧
    should_trigger_incident config now (some (rev, t))
        (config.error_threshold - 1) = none := by
  have hlt : ¬ t < now - 60 * config.rollout_window_minutes := by omega
  refine ⟨fun c => ?_, ?_, ?_⟩
  · by_cases hc : c < config.error_threshold
    · simp [should_trigger_incident, hlt, hc]
    · simp [should_trigger_incident, hlt, hc]
      omega
  · have hc : ¬ config.error_threshold < config.error_threshold := by omega
    simp [should_trigger_incident, hlt, hc]
  · have hc : config.error_threshold - 1 < config.error_threshold := by omega
    simp [should_trigger_incident, hlt, hc]

/-- C2 witness: concrete instantiation at threshold 5, window 10 minutes,
rollout created at the evaluation instant. -/
theorem C2_threshold_boundary_witness :
    should_trigger_incident
      ⟨"demo", "payments-api", "http://loki", 5, 10, 20, none, "payments-api"⟩
      0 (some ("7", 0)) 5 = some ("7", 0) :=
  (C2_threshold_boundary
    ⟨"demo", "payments-api", "http://loki", 5, 10, 20, none, "payments-api"⟩
    0 "7" 0 (by decide)).2.1

/-- C3: with an error count at or above the threshold, the trigger
evaluator triggers if and only if the rollout's age `now - t` is at most
the correlation window; a rollout exactly at the window edge triggers. -/
theorem C3_window_boundary (config : Config) (now : Int) (rev : String)
    (t : Int) (c : Int) (hc : config.error_threshold ≤ c) :
    (should_trigger_incident config now (some (rev, t)) c = some (rev, t) ↔
      now - t ≤ 60 * config.rollout_window_minutes) ∧
    (now - t = 60 * config.rollout_window_minutes →
      should_trigger_incident config now (some (rev, t)) c = some (rev, t)) := by
  have hc' : ¬ c < config.error_threshold := by omega
  constructor
  · by_cases hw : t < now - 60 * config.rollout_window_minutes
    · simp [should_trigger_incident, hw]
      omega
    · simp [should_trigger_incident, hw, hc']
      omega
  · intro hedge
    have hw : ¬ t < now - 60 * config.rollout_window_minutes := by omega
    simp [should_trigger_incident, hw, hc']

/-- C3 witness: concrete instantiation at the exact window edge
(now - t = 600 seconds = 10 minutes). -/
theorem C3_window_boundary_witness :
    should_trigger_incident
      ⟨"demo", "payments-api", "http://loki", 5, 10, 20, none, "payments-api"⟩
      600 (some ("7", 0)) 8 = some ("7", 0) :=
  (C3_window_boundary
    ⟨"demo", "payments-api", "http://loki", 5, 10, 20, none, "payments-api"⟩
    600 "7" 0 8 (by decide)).2 (by decide)

/-- C8: the notifier returns the "skipped" outcome if and only if no
webhook endpoint is configured (absent or empty), regardless of the
incident and of the network's behaviour, and in that case it performs no
network call. -/
theorem C8_skipped_iff_unconfigured (post : String → String → HttpResponse)
    (webhook_url : Option String) (incident : Incident) :
    ((send_slack_notification post webhook_url incident).1 =
        Except.ok "skipped (no webhook configured)" ↔
      truthy webhook_url = false) ∧
    (truthy webhook_url = false →
      (send_slack_notification post webhook_url incident).2 = []) := by
  by_cases ht : truthy webhook_url = false
  · simp [send_slack_notification, ht]
  · refine ⟨⟨fun h => ?_, fun h => absurd h ht⟩, fun h => absurd h ht⟩
    rw [send_slack_notification, if_neg ht] at h
    dsimp only at h
    rcases hr : raiseForStatus
        (post (webhook_url.getD "") (format_slack_message incident)) with exc | st
    · rw [hr] at h
      exact Except.noConfusion h
    · rw [hr] at h
      exact absurd (Except.ok.inj h) (sent_ne_skipped (toString st))

/-- C10: in a cycle where both fetches succeed but no qualifying rollout is
found, `last_rollout_revision` and `last_rollout_time` keep their previous
values, while `last_poll_time` and `last_error_count` are updated. -/
theorem C10_no_rollout_frame (config : Config) (s : State) (now : Int)
    (loki : Except String (List (List (Int × LokiValue))))
    (post : String → String → HttpResponse) (replicasets : List ReplicaSet)
    (c : Int)
    (hfri : fetch_rollout_info config.target_deployment replicasets = none)
    (hfec : fetch_error_count config loki = .ok c) :
    (poll_cycle config s ⟨now, .ok replicasets, loki, post⟩).state.last_rollout_revision =
      s.last_rollout_revision ∧
    (poll_cycle config s ⟨now, .ok replicasets, loki, post⟩).state.last_rollout_time =
      s.last_rollout_time ∧
    (poll_cycle config s ⟨now, .ok replicasets, loki, post⟩).state.last_poll_time =
      some now ∧
    (poll_cycle config s ⟨now, .ok replicasets, loki, post⟩).state.last_error_count =
      some c := by
  have hsti : should_trigger_incident config now
      (fetch_rollout_info config.target_deployment replicasets) c = none := by
    rw [hfri]
    rfl
  rw [poll_cycle_no_trigger config s now loki post replicasets c hfec hsti,
    hfri]
  exact ⟨rfl, rfl, rfl, rfl⟩

/-- C10 witness: a state carrying rollout data from an earlier cycle keeps
it when the ReplicaSet list contains no qualifying object. -/
theorem C10_no_rollout_frame_witness :
    (poll_cycle demoConfig
        { last_rollout_revision := some "6", last_rollout_time := some 50 }
        ⟨660, .ok [], .ok [], fun _ _ => .response 200⟩).state.last_rollout_revision =
      some "6" ∧
    (poll_cycle demoConfig
        { last_rollout_revision := some "6", last_rollout_time := some 50 }
        ⟨660, .ok [], .ok [], fun _ _ => .response 200⟩).state.last_rollout_time =
      some 50 ∧
    (poll_cycle demoConfig
        { last_rollout_revision := some "6", last_rollout_time := some 50 }
        ⟨660, .ok [], .ok [], fun _ _ => .response 200⟩).state.last_poll_time =
      some 660 ∧
    (poll_cycle demoConfig
        { last_rollout_revision := some "6", last_rollout_time := some 50 }
        ⟨660, .ok [], .ok [], fun _ _ => .response 200⟩).state.last_error_count =
      some 0 :=
  C10_no_rollout_frame demoConfig
    { last_rollout_revision := some "6", last_rollout_time := some 50 }
    660 (.ok []) (fun _ _ => .response 200) [] 0 rfl rfl

/-- C1 counterexample: with a configured webhook that answers 500, a cycle
whose trigger fires does NOT record the incident as detected — the dedup
key stays unset, no incident is stored, nothing is emitted, and only an
error outcome string is recorded — contradicting the claim that the cycle
still sets `last_incident_revision`, stores the incident, and emits it. -/
theorem C1_counterexample :
    (poll_cycle demoConfig {} failCycleInput).state.last_incident_revision =
      none ∧
    (poll_cycle demoConfig {} failCycleInput).state.last_incident = none ∧
    (poll_cycle demoConfig {} failCycleInput).emitted = [] ∧
    (poll_cycle demoConfig {} failCycleInput).state.last_slack_status =
      some "error: HTTPError: 500" :=
  ⟨rfl, rfl, rfl, rfl⟩

/-- C1 (amended): when notification delivery fails on a novel triggered
revision, the incident is built and the notification attempted, the
delivery failure is recorded as an outcome string in `last_slack_status`,
the cycle is not aborted (the last-poll fields stand), but the incident is
NOT recorded as detected: `last_incident_revision` and `last_incident` are
unchanged and no incident record is emitted. -/
theorem C1_delivery_failure (config : Config) (s : State) (now : Int)
    (loki : Except String (List (List (Int × LokiValue))))
    (post : String → String → HttpResponse) (replicasets : List ReplicaSet)
    (R : String) (t c : Int) (exc : String)
    (hfri : fetch_rollout_info config.target_deployment replicasets =
      some (R, t))
    (hfec : fetch_error_count config loki = .ok c)
    (hsti : should_trigger_incident config now (some (R, t)) c = some (R, t))
    (hnew : s.last_incident_revision ≠ some R)
    (hfail : (send_slack_notification post config.slack_webhook_url
        (build_incident config now R t c)).1 = Except.error exc) :
    (poll_cycle config s ⟨now, .ok replicasets, loki, post⟩).built =
      [build_incident config now R t c] ∧
    (poll_cycle config s ⟨now, .ok replicasets, loki, post⟩).notified =
      [build_incident config now R t c] ∧
    (poll_cycle config s ⟨now, .ok replicasets, loki, post⟩).emitted = [] ∧
    (poll_cycle config s ⟨now, .ok replicasets, loki, post⟩).state.last_incident_revision =
      s.last_incident_revision ∧
    (poll_cycle config s ⟨now, .ok replicasets, loki, post⟩).state.last_incident =
      s.last_incident ∧
    (poll_cycle config s ⟨now, .ok replicasets, loki, post⟩).state.last_slack_status =
      some ("error: " ++ exc) ∧
    (poll_cycle config s ⟨now, .ok replicasets, loki, post⟩).state.last_poll_time =
      some now := by
  rw [poll_cycle_trigger config s now loki post replicasets R t c hfri hfec
    hsti]
  dsimp only
  rw [if_neg hnew]
  rcases hsend : send_slack_notification post config.slack_webhook_url
      (build_incident config now R t c) with ⟨res, calls⟩
  rw [hsend] at hfail
  dsimp only at hfail
  subst hfail
  exact ⟨rfl, rfl, rfl, rfl, rfl, rfl, rfl⟩

/-- C1 witness for the amended theorem: the concrete failing-delivery cycle
of `C1_counterexample`, reached through the general statement. -/
theorem C1_delivery_failure_witness :
    (poll_cycle demoConfig {}
        ⟨660, .ok [demoReplicaSet], .ok [[(0, .num 8)]],
          fun _ _ => .response 500⟩).emitted = [] ∧
    (poll_cycle demoConfig {}
        ⟨660, .ok [demoReplicaSet], .ok [[(0, .num 8)]],
          fun _ _ => .response 500⟩).state.last_incident_revision = none ∧
    (poll_cycle demoConfig {}
        ⟨660, .ok [demoReplicaSet], .ok [[(0, .num 8)]],
          fun _ _ => .response 500⟩).state.last_slack_status =
      some ("error: " ++ "HTTPError: 500") := by
  have h := C1_delivery_failure demoConfig {} 660 (.ok [[(0, .num 8)]])
    (fun _ _ => .response 500) [demoReplicaSet] "7" 60 8 "HTTPError: 500"
    rfl rfl rfl (by decide) rfl
  exact ⟨h.2.2.1, h.2.2.2.1, h.2.2.2.2.2.1⟩

/-- C4: per cycle, a successful triggered cycle emits iff the triggered
revision differs from the dedup key (including the never-emitted case) and
then sets the key to that revision; across N ≥ 2 consecutive successful
cycles continuously triggering for the same revision, exactly one incident
is built, exactly one notification is attempted, and exactly one record is
emitted. -/
theorem C4_dedup_exactly_once (config : Config) (R : String) :
    (∀ (s : State) (inp : CycleInput),
      cycle_triggers_for config inp R → notify_succeeds inp →
      (((poll_cycle config s inp).emitted ≠ [] ↔
          s.last_incident_revision ≠ some R) ∧
        ((poll_cycle config s inp).emitted ≠ [] →
          (poll_cycle config s inp).state.last_incident_revision = some R))) ∧
    (∀ (s : State) (inputs : List CycleInput),
      2 ≤ inputs.length →
      s.last_incident_revision ≠ some R →
      (∀ inp ∈ inputs,
        cycle_triggers_for config inp R ∧ notify_succeeds inp) →
      ∃ inc : Incident, inc.revision = R ∧
        (run_cycles config s inputs).built = [inc] ∧
        (run_cycles config s inputs).notified = [inc] ∧
        (run_cycles config s inputs).emitted = [inc] ∧
        (run_cycles config s inputs).state.last_incident_revision =
          some R) := by
  constructor
  · intro s inp htrig hok
    by_cases hdup : s.last_incident_revision = some R
    · obtain ⟨_, _, he, _⟩ := poll_cycle_skip_of_dup config s inp R htrig hdup
      constructor
      · rw [he]
        simp [hdup]
      · intro hne
        rw [he] at hne
        exact absurd rfl hne
    · obtain ⟨inc, _, _, _, he, hkey, _⟩ :=
        poll_cycle_emit_of_new config s inp R htrig hdup hok
      constructor
      · rw [he]
        simp [hdup]
      · intro _
        exact hkey
  · intro s inputs hlen hnew hall
    rcases inputs with _ | ⟨inp, rest⟩
    · simp at hlen
    · obtain ⟨inc, hrev, hb, hn, he, hkey, _⟩ :=
        poll_cycle_emit_of_new config s inp R
          (hall inp (List.mem_cons_self inp rest)).1 hnew
          (hall inp (List.mem_cons_self inp rest)).2
      obtain ⟨hb', hn', he', hkey'⟩ := run_cycles_skip_of_dup config R rest
        (poll_cycle config s inp).state hkey
        (fun i hi => (hall i (List.mem_cons_of_mem inp hi)).1)
      refine ⟨inc, hrev, ?_, ?_, ?_, ?_⟩
      · rw [run_cycles_cons_eq]
        dsimp only
        rw [hb, hb', List.append_nil]
      · rw [run_cycles_cons_eq]
        dsimp only
        rw [hn, hn', List.append_nil]
      · rw [run_cycles_cons_eq]
        dsimp only
        rw [he, he', List.append_nil]
      · rw [run_cycles_cons_eq]
        dsimp only
        exact hkey'

/-- C4 witness: two consecutive good cycles for revision "7" from an empty
state yield exactly one built, notified and emitted incident. -/
theorem C4_dedup_exactly_once_witness :
    ∃ inc : Incident, inc.revision = "7" ∧
      (run_cycles demoConfig {} [goodCycleInput, goodCycleInput]).built =
        [inc] ∧
      (run_cycles demoConfig {} [goodCycleInput, goodCycleInput]).notified =
        [inc] ∧
      (run_cycles demoConfig {} [goodCycleInput, goodCycleInput]).emitted =
        [inc] ∧
      (run_cycles demoConfig {}
          [goodCycleInput, goodCycleInput]).state.last_incident_revision =
        some "7" := by
  refine (C4_dedup_exactly_once demoConfig "7").2 {}
    [goodCycleInput, goodCycleInput] (by decide) (by decide) ?_
  have h7 : cycle_triggers_for demoConfig goodCycleInput "7" ∧
      notify_succeeds goodCycleInput :=
    ⟨⟨[demoReplicaSet], 60, 8, rfl, rfl, rfl, rfl⟩,
      fun _ _ => ⟨200, rfl, by decide⟩⟩
  intro inp hi
  rcases hi with _ | ⟨_, hi⟩
  · exact h7
  · rcases hi with _ | ⟨_, hi⟩
    · exact h7
    · cases hi

/-- C5: after revision R1 triggered (dedup key = R1), a cycle observing a
distinct revision R2 with the trigger condition satisfied and a working
webhook emits a new incident for R2 and moves the dedup key to R2. -/
theorem C5_rearm_on_new_revision (config : Config) (s : State)
    (inp : CycleInput) (R1 R2 : String) (hne : R2 ≠ R1)
    (hkey : s.last_incident_revision = some R1)
    (htrig : cycle_triggers_for config inp R2)
    (hok : notify_succeeds inp) :
    ∃ inc : Incident, inc.revision = R2 ∧
      (poll_cycle config s inp).emitted = [inc] ∧
      (poll_cycle config s inp).state.last_incident_revision = some R2 := by
  have hnew : s.last_incident_revision ≠ some R2 := by
    rw [hkey]
    intro h
    exact hne (Option.some.inj h).symm
  obtain ⟨inc, hrev, _, _, he, hk2, _⟩ :=
    poll_cycle_emit_of_new config s inp R2 htrig hnew hok
  exact ⟨inc, hrev, he, hk2⟩

/-- C5 witness: dedup key "6", good cycle for revision "7" emits and moves
the key to "7" even though the error count was already above threshold. -/
theorem C5_rearm_on_new_revision_witness :
    ∃ inc : Incident, inc.revision = "7" ∧
      (poll_cycle demoConfig { last_incident_revision := some "6" }
        goodCycleInput).emitted = [inc] ∧
      (poll_cycle demoConfig { last_incident_revision := some "6" }
        goodCycleInput).state.last_incident_revision = some "7" :=
  C5_rearm_on_new_revision demoConfig { last_incident_revision := some "6" }
    goodCycleInput "6" "7" (by decide) rfl
    ⟨[demoReplicaSet], 60, 8, rfl, rfl, rfl, rfl⟩
    (fun _ _ => ⟨200, rfl, by decide⟩)

/-- C7: `fetch_rollout_info` returns nothing iff no ReplicaSet qualifies
(owned by the deployment with a truthy revision annotation and a creation
timestamp); otherwise it returns the key of the first qualifying
ReplicaSet, in list order, whose creation time is maximal: every
qualifying key before it is strictly older and every one after it is no
newer — a deterministic tie-break on equal timestamps. -/
theorem C7_latest_rollout (deployment : String)
    (replicasets : List ReplicaSet) :
    (fetch_rollout_info deployment replicasets = none ↔
      ∀ r ∈ replicasets, rsKey deployment r = none) ∧
    (∀ rev t, fetch_rollout_info deployment replicasets = some (rev, t) →
      ∃ l₁ l₂,
        replicasets.filterMap (rsKey deployment) = l₁ ++ (rev, t) :: l₂ ∧
        (∀ p ∈ l₁, p.2 < t) ∧ (∀ p ∈ l₂, p.2 ≤ t)) := by
  have hfold : fetch_rollout_info deployment replicasets =
      (replicasets.filterMap (rsKey deployment)).foldl pickPair none :=
    foldl_pickLater_eq deployment replicasets none
  rw [hfold]
  rcases hks : replicasets.filterMap (rsKey deployment) with _ | ⟨k, rest⟩
  · constructor
    · constructor
      · intro _
        exact List.filterMap_eq_nil_iff.1 hks
      · intro _
        rfl
    · intro rev t h
      exact absurd h (by simp)
  · have hpk : pickPair none k = some k := rfl
    constructor
    · constructor
      · intro h
        rw [List.foldl_cons, hpk] at h
        rcases foldl_pickPair_some rest k with ⟨heq, _⟩ |
            ⟨c, l₁, l₂, _, heq, _, _, _⟩ <;>
          rw [heq] at h <;> exact Option.noConfusion h
      · intro hall
        have h0 := List.filterMap_eq_nil_iff.2 hall
        rw [hks] at h0
        exact absurd h0 (List.cons_ne_nil k rest)
    · intro rev t h
      rw [List.foldl_cons, hpk] at h
      rcases foldl_pickPair_some rest k with ⟨heq, hall⟩ |
          ⟨c, l₁, l₂, hsplit, heq, hlt, hpre, hpost⟩
      · rw [heq] at h
        have hk' := Option.some.inj h
        refine ⟨[], rest, ?_, by simp, ?_⟩
        · rw [hk']
          rfl
        · intro p hp
          have := hall p hp
          rw [hk'] at this
          exact this
      · rw [heq] at h
        have hc := Option.some.inj h
        subst hc
        refine ⟨k :: l₁, l₂, ?_, ?_, hpost⟩
        · rw [hsplit]
          rfl
        · intro p hp
          rcases List.mem_cons.1 hp with rfl | hm
          · exact hlt
          · exact hpre p hm

/-- C7 witness: two qualifying ReplicaSets sharing the maximal creation
timestamp 60 — the fetch returns the first one in list order (revision
"7"), and the characterization confirms the earlier/later bounds. -/
theorem C7_latest_rollout_witness :
    ∃ l₁ l₂,
      ([⟨[⟨"Deployment", "payments-api"⟩], some "7", some 60⟩,
        ⟨[⟨"Deployment", "payments-api"⟩], some "8", some 60⟩] :
          List ReplicaSet).filterMap (rsKey "payments-api") =
        l₁ ++ ("7", 60) :: l₂ ∧
      (∀ p ∈ l₁, p.2 < 60) ∧ (∀ p ∈ l₂, p.2 ≤ 60) :=
  (C7_latest_rollout "payments-api"
    [⟨[⟨"Deployment", "payments-api"⟩], some "7", some 60⟩,
     ⟨[⟨"Deployment", "payments-api"⟩], some "8", some 60⟩]).2 "7" 60
    (by decide)

/-- C6 counterexample: a payload value that parses to an infinite float
makes `fetch_error_count` raise `OverflowError` out of the fetch (only
`ValueError` is caught), contradicting the claim that every malformed
numeric payload value yields 0 without the fetch raising. -/
theorem C6_counterexample :
    fetch_error_count demoConfig (.ok [[(0, LokiValue.inf)]]) =
      Except.error "OverflowError: cannot convert float infinity to integer" :=
  rfl

/-- C6 (amended): the error-count fetch returns 0 when the Loki endpoint
is unconfigured, when the query yields no series, or when the first series
has no values; otherwise it processes the most recent value of the first
series: a finite float is rounded toward zero, an unparseable value or a
NaN yields 0 without raising (ValueError is caught), while an infinite
value raises OverflowError out of the fetch; a transport/HTTP failure of
the query propagates. -/
theorem C6_error_count (config : Config) :
    (config.loki_url = "" →
      ∀ lokiQuery, fetch_error_count config lokiQuery = Except.ok 0) ∧
    (config.loki_url ≠ "" →
      (∀ exc, fetch_error_count config (.error exc) = Except.error exc) ∧
      fetch_error_count config (.ok []) = Except.ok 0 ∧
      (∀ rest, fetch_error_count config (.ok ([] :: rest)) = Except.ok 0) ∧
      (∀ series rest ts q, series.getLast? = some (ts, LokiValue.num q) →
        ∃ z : Int,
          fetch_error_count config (.ok (series :: rest)) = Except.ok z ∧
          (0 ≤ q → (z : ℚ) ≤ q ∧ q < (z : ℚ) + 1) ∧
          (q < 0 → (z : ℚ) - 1 < q ∧ q ≤ (z : ℚ))) ∧
      (∀ series rest ts, series.getLast? = some (ts, LokiValue.bad) →
        fetch_error_count config (.ok (series :: rest)) = Except.ok 0) ∧
      (∀ series rest ts, series.getLast? = some (ts, LokiValue.nan) →
        fetch_error_count config (.ok (series :: rest)) = Except.ok 0) ∧
      (∀ series rest ts, series.getLast? = some (ts, LokiValue.inf) →
        fetch_error_count config (.ok (series :: rest)) =
          Except.error
            "OverflowError: cannot convert float infinity to integer")) := by
  constructor
  · intro hl lokiQuery
    simp [fetch_error_count, hl]
  · intro hurl
    have hurl' : (config.loki_url == "") = false := by
      simpa using hurl
    refine ⟨?_, ?_, ?_, ?_, ?_, ?_, ?_⟩
    · intro exc
      simp [fetch_error_count, hurl']
    · simp [fetch_error_count, hurl']
    · intro rest
      simp [fetch_error_count, hurl']
    · intro series rest ts q hlast
      refine ⟨int_of_pyfloat q, ?_, ?_, ?_⟩
      · simp [fetch_error_count, hurl', hlast, int_of_loki_value]
      · intro hq
        rw [int_of_pyfloat, if_pos hq]
        exact ⟨Int.floor_le q, Int.lt_floor_add_one q⟩
      · intro hq
        rw [int_of_pyfloat, if_neg (by exact fun h => absurd hq (not_lt.2 h))]
        constructor
        · have := Int.ceil_lt_add_one q
          linarith
        · exact Int.le_ceil q
    · intro series rest ts hlast
      simp [fetch_error_count, hurl', hlast, int_of_loki_value]
    · intro series rest ts hlast
      simp [fetch_error_count, hurl', hlast, int_of_loki_value]
    · intro series rest ts hlast
      simp [fetch_error_count, hurl', hlast, int_of_loki_value]

/-- C6 witness: configured endpoint, one series whose latest value is the
finite float 3.7, truncated toward zero to an integer bounded by 3.7 and
4.7. -/
theorem C6_error_count_witness :
    ∃ z : Int,
      fetch_error_count demoConfig (.ok [[(0, LokiValue.num (37 / 10))]]) =
        Except.ok z ∧
      (0 ≤ (37 / 10 : ℚ) → (z : ℚ) ≤ (37 / 10 : ℚ) ∧
        (37 / 10 : ℚ) < (z : ℚ) + 1) ∧
      ((37 / 10 : ℚ) < 0 → (z : ℚ) - 1 < (37 / 10 : ℚ) ∧
        (37 / 10 : ℚ) ≤ (z : ℚ)) :=
  ((C6_error_count demoConfig).2 (by decide)).2.2.2.1
    [(0, LokiValue.num (37 / 10))] [] 0 (37 / 10) rfl

/-- C8 witness: with no webhook configured, the notifier returns the
skipped outcome and the list of POSTs made is empty. -/
theorem C8_skipped_iff_unconfigured_witness :
    (send_slack_notification (fun _ _ => .response 200) none
        (build_incident demoConfig 0 "7" 60 8)).1 =
      Except.ok "skipped (no webhook configured)" ∧
    (send_slack_notification (fun _ _ => .response 200) none
        (build_incident demoConfig 0 "7" 60 8)).2 = [] := by
  have h := C8_skipped_iff_unconfigured (fun _ _ => .response 200) none
    (build_incident demoConfig 0 "7" 60 8)
  exact ⟨h.1.2 rfl, h.2 rfl⟩

end IncidentDetector
